import Mathlib

/-!
# Formal model of the `flaccid` FLAC container parser

This file is a shallow embedding of `src/flaccid/__init__.py` (CPython 3.11
semantics).  A byte source is a `List Nat` of byte values together with a read
cursor; `read`, `seek` and `tell` follow Python binary-file semantics
(`read n` returns at most `n` bytes and advances the cursor by the number of
bytes actually returned; `seek` is absolute and may point past the end).

The ctypes structures of the source are embedded as byte-level decoders.  The
bit positions were determined from CPython 3.11 ctypes itself (the layouts
below are the ones `BigEndianStructure` with `_pack_ = 1` actually produces for
the declared field lists):

* `MetadataBlockHeader` (`c_uint32` bitfields 1/7/24): 4 bytes, contiguous
  big-endian packing — last-flag is the top bit of byte 0, type the low 7 bits
  of byte 0, length the big-endian 24-bit value of bytes 1..3.
* `MetadataSeekPoint` (`c_uint64:64`, `c_uint64:64`, `c_uint16:16`): 18 bytes,
  three plain big-endian fields.
* `FrameHeaderRaw` (`c_uint16:14` then seven sub-byte `c_uint8` fields):
  4 bytes, contiguous big-endian packing of 14+1+1+4+4+4+3+1 bits.
* `MetadataBlockStreamInfo`: `sizeof` is 36 (not 34): the 24-bit fields each
  occupy the top 3 bytes of a 4-byte unit (pad bytes at offsets 7 and 11), the
  20-bit `sample_rate_hz` sits in the top 20 bits of bytes 12..15, the
  bitfield descriptors of `num_channels` and `bits_per_sample` point past
  their 1-byte storage unit so both fields always read 0, and
  `total_sample_count` reads the low 36 bits of the big-endian 8-byte unit at
  offsets 12..19 (low nibble of byte 15 and bytes 16..19).

`from_buffer` on a buffer shorter than `sizeof` raises
`ValueError("Buffer size too small ...")`; `bytes.decode("utf-8")` raises a
`UnicodeDecodeError` exactly on byte sequences that are not valid UTF-8; an
`Enum` lookup at a value with no member raises `ValueError`.  Python small
integers are cached, so the `is not` comparison in `parse_magic` coincides
with inequality on byte values.
-/

namespace Flaccid

/-- The exception classes the program can raise, with their messages. -/
inductive PyError where
  /-- The model of `ValueError`: short `from_buffer` buffer, or an `Enum` lookup miss. -/
  | valueError (msg : String)
  /-- The model of `RuntimeError`: the explicit `raise RuntimeError(...)` statements. -/
  | runtimeError (msg : String)
  /-- The model of `NotImplementedError`: unsupported block type in the payload dispatch. -/
  | notImplementedError (msg : String)
  /-- The model of `AttributeError`: attribute access on an object lacking the attribute. -/
  | attributeError (msg : String)
  /-- The model of `UnicodeDecodeError` from `bytes.decode` on invalid UTF-8. -/
  | unicodeDecodeError
  deriving DecidableEq, Repr

/-- Result of a parsing step: a value or a raised exception, together with the
file cursor position at that point (Python reads are not rolled back by an
exception). -/
inductive PRes (α : Type) where
  | ok : α → Nat → PRes α
  | err : PyError → Nat → PRes α
  deriving DecidableEq, Repr

/-- The model of `self.flac.read n` at cursor `pos`: return the bytes actually available
(at most `n`) and the advanced cursor. -/
def fread (src : List Nat) (pos n : Nat) : List Nat × Nat :=
  let bs := (src.drop pos).take n
  (bs, pos + bs.length)

/-- Big-endian integer value of a byte list (`foldl`). -/
def beNat (bs : List Nat) : Nat :=
  bs.foldl (fun a b => a * 256 + b) 0

/-- The model of `MetadataBlockHeader` decoded from its 4 ctypes bytes. -/
structure MetadataBlockHeader where
  is_last_block : Nat
  block_type : Nat
  length : Nat
  deriving DecidableEq, Repr

/-- ctypes decode of `MetadataBlockHeader.from_buffer` (bytes `b0 b1 b2 b3`):
top bit of `b0` is the last flag, its low 7 bits the type, bytes 1..3 the
big-endian length. -/
def decodeMetadataBlockHeader (bs : List Nat) : MetadataBlockHeader :=
  { is_last_block := bs.headI / 128
    block_type := bs.headI % 128
    length := beNat ((bs.drop 1).take 3) }

/-- The model of `MetadataBlockStreamInfo` field values as ctypes exposes them. -/
structure MetadataBlockStreamInfo where
  min_block_size : Nat
  max_block_size : Nat
  min_frame_size : Nat
  max_frame_size : Nat
  sample_rate_hz : Nat
  num_channels : Nat
  bits_per_sample : Nat
  total_sample_count : Nat
  md5_low : Nat
  md5_high : Nat
  deriving DecidableEq, Repr

/-- Byte `i` of a byte list (0 when out of range), as ctypes field reads do on
the 36-byte buffer. -/
def byteAt (bs : List Nat) (i : Nat) : Nat := (bs.drop i).headI

/-- ctypes decode of `MetadataBlockStreamInfo.from_buffer` on its 36-byte
buffer, at the bit positions CPython 3.11 ctypes gives the declared fields
(pad bytes at offsets 7 and 11; dead low nibble of byte 14 and high nibble of
byte 15; `num_channels` and `bits_per_sample` always read 0). -/
def decodeStreamInfo (bs : List Nat) : MetadataBlockStreamInfo :=
  { min_block_size := byteAt bs 0 * 256 + byteAt bs 1
    max_block_size := byteAt bs 2 * 256 + byteAt bs 3
    min_frame_size := byteAt bs 4 * 65536 + byteAt bs 5 * 256 + byteAt bs 6
    max_frame_size := byteAt bs 8 * 65536 + byteAt bs 9 * 256 + byteAt bs 10
    sample_rate_hz := byteAt bs 12 * 4096 + byteAt bs 13 * 16 + byteAt bs 14 / 16
    num_channels := 0
    bits_per_sample := 0
    total_sample_count := byteAt bs 15 % 16 * 4294967296 + byteAt bs 16 * 16777216
      + byteAt bs 17 * 65536 + byteAt bs 18 * 256 + byteAt bs 19
    md5_low := beNat ((bs.drop 20).take 8)
    md5_high := beNat ((bs.drop 28).take 8) }

/-- The model of `MetadataSeekPoint` field values. -/
structure MetadataSeekPoint where
  first_sample_number : Nat
  target_offset : Nat
  target_num_samples : Nat
  deriving DecidableEq, Repr

/-- ctypes decode of `MetadataSeekPoint.from_buffer` on its 18-byte buffer:
three plain big-endian fields of 8, 8 and 2 bytes. -/
def decodeSeekPoint (bs : List Nat) : MetadataSeekPoint :=
  { first_sample_number := beNat (bs.take 8)
    target_offset := beNat ((bs.drop 8).take 8)
    target_num_samples := beNat ((bs.drop 16).take 2) }

/-- The model of `FrameHeaderRaw` field values. -/
structure FrameHeaderRaw where
  sync_code : Nat
  reserved1 : Nat
  blocking_strategy : Nat
  block_size : Nat
  sample_rate : Nat
  channel : Nat
  sample_size : Nat
  reserved2 : Nat
  deriving DecidableEq, Repr

/-- ctypes decode of `FrameHeaderRaw.from_buffer` on its 4-byte buffer:
contiguous big-endian packing 14+1+1+4+4+4+3+1 of the 32-bit value. -/
def decodeFrameHeaderRaw (bs : List Nat) : FrameHeaderRaw :=
  let v := beNat (bs.take 4)
  { sync_code := v / 262144
    reserved1 := v / 131072 % 2
    blocking_strategy := v / 65536 % 2
    block_size := v / 4096 % 16
    sample_rate := v / 256 % 16
    channel := v / 16 % 16
    sample_size := v / 2 % 8
    reserved2 := v % 2 }

/-- ctypes decode of `c_uint32.from_buffer` (native little-endian). -/
def decodeLEu32 (bs : List Nat) : Nat :=
  byteAt bs 0 + byteAt bs 1 * 256 + byteAt bs 2 * 65536 + byteAt bs 3 * 16777216

/-- UTF-8 validity of a byte sequence, as Python's strict `utf-8` codec
checks it (RFC 3629: no overlong forms, no surrogates, maximum U+10FFFF). -/
def utf8Valid : List Nat → Bool
  | [] => true
  | b :: rest =>
    if b < 128 then utf8Valid rest
    else if b < 194 then false -- 0x80..0xC1: continuation byte or overlong lead
    else if b < 224 then
      match rest with
      | b2 :: rest2 => 128 ≤ b2 && b2 < 192 && utf8Valid rest2
      | _ => false
    else if b < 240 then
      match rest with
      | b2 :: b3 :: rest3 =>
        (if b = 224 then 160 ≤ b2 && b2 < 192
         else if b = 237 then 128 ≤ b2 && b2 < 160
         else 128 ≤ b2 && b2 < 192)
        && (128 ≤ b3 && b3 < 192) && utf8Valid rest3
      | _ => false
    else if b < 245 then
      match rest with
      | b2 :: b3 :: b4 :: rest4 =>
        (if b = 240 then 144 ≤ b2 && b2 < 192
         else if b = 244 then 128 ≤ b2 && b2 < 144
         else 128 ≤ b2 && b2 < 192)
        && (128 ≤ b3 && b3 < 192) && (128 ≤ b4 && b4 < 192) && utf8Valid rest4
      | _ => false
    else false

/-- The model of `bytes.decode("utf-8")`: the decoded string is modelled by its byte
sequence (Python round-trips valid UTF-8 exactly); invalid input raises. -/
def pyDecodeUtf8 (bs : List Nat) : Except PyError (List Nat) :=
  if utf8Valid bs then .ok bs else .error .unicodeDecodeError

/-- The model of `read_ctype_from_file`: read `sizeof` bytes and `from_buffer` them; a
short buffer raises `ValueError`. -/
def read_ctype {α : Type} (sz : Nat) (dec : List Nat → α) (src : List Nat)
    (pos : Nat) : PRes α :=
  let r := fread src pos sz
  if r.1.length < sz then .err (.valueError "Buffer size too small") r.2
  else .ok (dec r.1) r.2

/-- The bytes of the literal `b"fLaC"`. -/
def correct_magic : List Nat := [102, 76, 97, 67]

/-- The model of `parse_magic`: read 4 bytes and compare byte by byte against `b"fLaC"`.
A mismatching byte only prints a diagnostic line; the method never raises and
always falls through to printing that the magic was verified.  Returns the
list of `(got, expected)` pairs that were reported and the cursor after the
read. -/
def parse_magic (src : List Nat) (pos : Nat) : List (Nat × Nat) × Nat :=
  let r := fread src pos 4
  ((r.1.zip correct_magic).filter (fun p => p.1 ≠ p.2), r.2)

/-- The model of `parse_metadata_header`: read and decode one 4-byte block header. -/
def parse_metadata_header (src : List Nat) (pos : Nat) : PRes MetadataBlockHeader :=
  read_ctype 4 decodeMetadataBlockHeader src pos

/-- The helper loop of `parse_seektable`: read `n` consecutive 18-byte
`MetadataSeekPoint` records via `read_ctype_from_file`. -/
def readSeekPoints (src : List Nat) : Nat → Nat → PRes (List MetadataSeekPoint)
  | 0, pos => .ok [] pos
  | n + 1, pos =>
    match read_ctype 18 decodeSeekPoint src pos with
    | .err e p => .err e p
    | .ok sp p =>
      match readSeekPoints src n p with
      | .err e p2 => .err e p2
      | .ok sps p2 => .ok (sp :: sps) p2

/-- The model of `parse_seektable`: guard the block type, then read
`int(header.length / 18)` seek points.  (`sizeof(MetadataSeekPoint)` is 18,
so the internal sanity check never fires; there is no check that the length
is a multiple of 18.) -/
def parse_seektable (src : List Nat) (header : MetadataBlockHeader)
    (pos : Nat) : PRes (List MetadataSeekPoint) :=
  if header.block_type ≠ 3 then
    .err (.runtimeError "wrong header passed to parse_seektable") pos
  else
    readSeekPoints src (header.length / 18) pos

/-- The comment loop of `parse_vorbis_comment`: `n` times, read a 4-byte
little-endian length, then that many bytes decoded as UTF-8 (a short read
returns the available bytes without error). -/
def readUserComments (src : List Nat) : Nat → Nat → PRes (List (List Nat))
  | 0, pos => .ok [] pos
  | n + 1, pos =>
    match read_ctype 4 decodeLEu32 src pos with
    | .err e p => .err e p
    | .ok len p =>
      let r := fread src p len
      match pyDecodeUtf8 r.1 with
      | .error e => .err e r.2
      | .ok comment =>
        match readUserComments src n r.2 with
        | .err e p2 => .err e p2
        | .ok cs p2 => .ok (comment :: cs) p2

/-- The data carried by a decoded `MetadataBlockVorbisComment`. -/
structure MetadataBlockVorbisComment where
  vendor_string : List Nat
  user_comments : List (List Nat)
  deriving DecidableEq, Repr

/-- The model of `parse_vorbis_comment`: guard the block type, read the little-endian
vendor length, the vendor string, the comment count, then the comments. -/
def parse_vorbis_comment (src : List Nat) (header : MetadataBlockHeader)
    (pos : Nat) : PRes MetadataBlockVorbisComment :=
  if header.block_type ≠ 4 then
    .err (.runtimeError "wrong header passed to parse_vorbis_comment") pos
  else
    match read_ctype 4 decodeLEu32 src pos with
    | .err e p => .err e p
    | .ok vendor_length p =>
      let rv := fread src p vendor_length
      match pyDecodeUtf8 rv.1 with
      | .error e => .err e rv.2
      | .ok vendor_string =>
        match read_ctype 4 decodeLEu32 src rv.2 with
        | .err e p2 => .err e p2
        | .ok count p2 =>
          match readUserComments src count p2 with
          | .err e p3 => .err e p3
          | .ok comments p3 => .ok ⟨vendor_string, comments⟩ p3

/-- The payload variants `parse_data_for_metadata_header` can produce. -/
inductive BlockData where
  | streamInfo (si : MetadataBlockStreamInfo)
  | seekTable (seek_points : List MetadataSeekPoint)
  | vorbisComment (vc : MetadataBlockVorbisComment)
  /-- The model of `MetadataBlockPadding` retains only the header length. -/
  | padding (length : Nat)
  deriving DecidableEq, Repr

/-- The model of `parse_padding`: guard the block type and return a
`MetadataBlockPadding` holding only the header length; no byte is read. -/
def parse_padding (header : MetadataBlockHeader) (pos : Nat) : PRes BlockData :=
  if header.block_type ≠ 1 then
    .err (.runtimeError "wrong header passed to parse_padding") pos
  else
    .ok (.padding header.length) pos

/-- The model of `parse_data_for_metadata_header`: dispatch on the block type in source
order (StreamInfo, SeekTable, VorbisComment, Padding), raising
`NotImplementedError` for any other type. -/
def parse_data_for_metadata_header (src : List Nat)
    (header : MetadataBlockHeader) (pos : Nat) : PRes BlockData :=
  if header.block_type = 0 then
    match read_ctype 36 decodeStreamInfo src pos with
    | .err e p => .err e p
    | .ok si p => .ok (.streamInfo si) p
  else if header.block_type = 3 then
    match parse_seektable src header pos with
    | .err e p => .err e p
    | .ok sps p => .ok (.seekTable sps) p
  else if header.block_type = 4 then
    match parse_vorbis_comment src header pos with
    | .err e p => .err e p
    | .ok vc p => .ok (.vorbisComment vc) p
  else if header.block_type = 1 then
    parse_padding header pos
  else
    .err (.notImplementedError "block type") pos

/-- A type code that is a member of the `MetadataBlockType` enum; the code
values 7..126 are reserved and have no member, so `MetadataBlockType(t)`
raises `ValueError` for them. -/
def isEnumMember (t : Nat) : Bool := t ≤ 6 || t = 127

/-- One decoded metadata block: its header paired with its payload. -/
structure MetadataBlock where
  header : MetadataBlockHeader
  data : BlockData
  deriving DecidableEq, Repr

/-- The model of `parse_metadata_block`: decode the header, remember
`block_end = tell() + length`, look the type up in the enum for the progress
print (raising `ValueError` on a reserved code), decode the payload, then
seek to `block_end` regardless of how many bytes the payload decoder
consumed. -/
def parse_metadata_block (src : List Nat) (pos : Nat) : PRes MetadataBlock :=
  match parse_metadata_header src pos with
  | .err e p => .err e p
  | .ok header p1 =>
    let block_end := p1 + header.length
    if isEnumMember header.block_type then
      match parse_data_for_metadata_header src header p1 with
      | .err e p => .err e p
      | .ok data _ => .ok ⟨header, data⟩ block_end
    else
      .err (.valueError "is not a valid MetadataBlockType") p1

/-- The model of `parse_frame_header`: read 4 bytes, decode `FrameHeaderRaw`, require the
sync code to print as `0b11111111111110` (equivalently to equal 16382), then
run `FrameHeader.validate_header`, which requires both reserved bits to be
zero. -/
def parse_frame_header (src : List Nat) (pos : Nat) : PRes FrameHeaderRaw :=
  match read_ctype 4 decodeFrameHeaderRaw src pos with
  | .err e p => .err e p
  | .ok raw p =>
    if raw.sync_code ≠ 16382 then
      .err (.runtimeError "FrameHeader sync code was incorrect") p
    else if raw.reserved1 ≠ 0 then
      .err (.runtimeError "frame_header reserved1 was not 0") p
    else if raw.reserved2 ≠ 0 then
      .err (.runtimeError "frame_header reserved2 was not 0") p
    else
      .ok raw p

/-- How the metadata-block loop of `FlacParser.__init__` ended. -/
inductive LoopOutcome where
  /-- The just-appended block had the last flag set. -/
  | lastBlock
  /-- The model of `NotImplementedError` was caught and the loop stopped gracefully. -/
  | unknownStop
  /-- Some other exception escaped the loop and aborts the constructor. -/
  | aborted (e : PyError)
  deriving DecidableEq, Repr

/-- The `while True` loop of `FlacParser.__init__`: parse one block and
append it; only `NotImplementedError` is caught (graceful stop); any other
exception escapes; the loop ends when the appended block has the last flag.
Returns the accumulated block list, the final cursor, and how it ended. -/
def parseBlockLoop (src : List Nat) (pos : Nat) (acc : List MetadataBlock) :
    List MetadataBlock × Nat × LoopOutcome :=
  match h : parse_metadata_block src pos with
  | .err (.notImplementedError _) p => (acc, p, .unknownStop)
  | .err e p => (acc, p, .aborted e)
  | .ok b p =>
    if b.header.is_last_block ≠ 0 then (acc ++ [b], p, .lastBlock)
    else parseBlockLoop src p (acc ++ [b])
termination_by src.length - pos
decreasing_by
  have hpos : pos + 4 ≤ src.length ∧ pos + 4 ≤ p := by
    unfold parse_metadata_block at h
    split at h
    · exact absurd h (by simp)
    · rename_i hd p1 hh
      have hh2 : pos + 4 ≤ src.length ∧ p1 = pos + 4 := by
        unfold parse_metadata_header read_ctype fread at hh
        simp only at hh
        split at hh
        · exact absurd hh (by simp)
        · rename_i hc
          have hlen : ((src.drop pos).take 4).length = min 4 (src.length - pos) := by
            simp
          rw [PRes.ok.injEq] at hh
          refine ⟨by omega, ?_⟩
          rw [← hh.2, hlen]
          omega
      obtain ⟨hsrc, hp1⟩ := hh2
      split at h
      · split at h
        · exact absurd h (by simp)
        · rw [PRes.ok.injEq] at h
          exact ⟨hsrc, by omega⟩
      · exact absurd h (by simp)
  omega

/-- The model of `get_metadata_block_with_type`: first block of the list with the given
type code, if any. -/
def get_metadata_block_with_type (blocks : List MetadataBlock) (t : Nat) :
    Option MetadataBlock :=
  blocks.find? (fun b => b.header.block_type == t)

/-- The model of `dump_stream_info`: reads attributes of `self.stream_info.data`; when no
StreamInfo block was found, `stream_info` is `None` and the attribute access
raises `AttributeError`.  Returns the raised error, if any. -/
def dump_stream_info (blocks : List MetadataBlock) : Option PyError :=
  match get_metadata_block_with_type blocks 0 with
  | none => some (.attributeError "NoneType object has no attribute data")
  | some b =>
    match b.data with
    | .streamInfo _ => none
    | _ => some (.attributeError "object has no attribute min_block_size")

/-- The model of `dump_seek_table`: as `dump_stream_info`, for the SeekTable block. -/
def dump_seek_table (blocks : List MetadataBlock) : Option PyError :=
  match get_metadata_block_with_type blocks 3 with
  | none => some (.attributeError "NoneType object has no attribute data")
  | some b =>
    match b.data with
    | .seekTable _ => none
    | _ => some (.attributeError "object has no attribute seek_points")

/-- The model of `dump_vorbis_comments`: as `dump_stream_info`, for the VorbisComment
block. -/
def dump_vorbis_comments (blocks : List MetadataBlock) : Option PyError :=
  match get_metadata_block_with_type blocks 4 with
  | none => some (.attributeError "NoneType object has no attribute user_comments")
  | some b =>
    match b.data with
    | .vorbisComment _ => none
    | _ => some (.attributeError "object has no attribute user_comments")

/-- The observable outcome of running `FlacParser.__init__` on a byte
source: the magic diagnostics printed, the metadata blocks appended to
`self.metadata_blocks`, and the exception that escaped the constructor
(`none` would mean the constructor returned normally). -/
structure InitOutcome where
  magicDiagnostics : List (Nat × Nat)
  blocks : List MetadataBlock
  error : Option PyError
  deriving DecidableEq, Repr

/-- The phases of `FlacParser.__init__` after the block loop: the three
block lookups, the three dump methods (which raise `AttributeError` when
their block is missing), `parse_frame_header`, and finally the report print
that accesses `frame_header.blocking_strategy` — an attribute `FrameHeader`
never defines, so even a fully successful parse ends in `AttributeError`. -/
def flacParserInitTail (diags : List (Nat × Nat)) (src : List Nat)
    (blocks : List MetadataBlock) (p : Nat) : InitOutcome :=
  match dump_stream_info blocks with
  | some e => ⟨diags, blocks, some e⟩
  | none =>
    match dump_seek_table blocks with
    | some e => ⟨diags, blocks, some e⟩
    | none =>
      match dump_vorbis_comments blocks with
      | some e => ⟨diags, blocks, some e⟩
      | none =>
        match parse_frame_header src p with
        | .err e _ => ⟨diags, blocks, some e⟩
        | .ok _ _ =>
          ⟨diags, blocks,
            some (.attributeError "FrameHeader object has no attribute blocking_strategy")⟩

/-- The model of `FlacParser.__init__` end to end: magic check (diagnostics only), the
block loop, then `flacParserInitTail` unless the loop aborted with an
uncaught exception. -/
def flacParserInit (src : List Nat) : InitOutcome :=
  let m := parse_magic src 0
  match parseBlockLoop src m.2 [] with
  | (blocks, _, .aborted e) => ⟨m.1, blocks, some e⟩
  | (blocks, p, .lastBlock) => flacParserInitTail m.1 src blocks p
  | (blocks, p, .unknownStop) => flacParserInitTail m.1 src blocks p

/-- The cursor position a parsing step ended at, whether it succeeded or
raised. -/
def PRes.pos {α : Type} : PRes α → Nat
  | .ok _ p => p
  | .err _ p => p

/-- Little-endian 4-byte encoding of a 32-bit value, used to build
VorbisComment test payloads. -/
def le32 (n : Nat) : List Nat :=
  [n % 256, n / 256 % 256, n / 65536 % 256, n / 16777216 % 256]

/-- The contiguous big-endian bit-packed 34-byte StreamInfo payload layout
described by the spec (sections 3 and 6): 16+16+24+24 bits of block/frame
sizes, then 20-bit sample rate, 3-bit channel code, 5-bit bits-per-sample
code and 36-bit total sample count packed into 8 bytes, then the 16
fingerprint bytes.  This is the spec-side reference layout that claim C4
compares the code against. -/
def specStreamInfoBytes (mnb mxb mnf mxf sr ch bps tsc : Nat)
    (md5 : List Nat) : List Nat :=
  [mnb / 256, mnb % 256,
   mxb / 256, mxb % 256,
   mnf / 65536, mnf / 256 % 256, mnf % 256,
   mxf / 65536, mxf / 256 % 256, mxf % 256,
   sr / 4096, sr / 16 % 256,
   sr % 16 * 16 + ch * 2 + bps / 16,
   bps % 16 * 16 + tsc / 4294967296,
   tsc / 16777216 % 256, tsc / 65536 % 256, tsc / 256 % 256, tsc % 256]
  ++ md5

/-! ## General lemmas about the model -/

/-- One unfolding of the metadata-block loop. -/
theorem parseBlockLoop_step (src : List Nat) (pos : Nat) (acc : List MetadataBlock) :
    parseBlockLoop src pos acc =
      match parse_metadata_block src pos with
      | .err (.notImplementedError _) p => (acc, p, .unknownStop)
      | .err e p => (acc, p, .aborted e)
      | .ok b p =>
        if b.header.is_last_block ≠ 0 then (acc ++ [b], p, .lastBlock)
        else parseBlockLoop src p (acc ++ [b]) := by
  rw [parseBlockLoop]
  split
  · rename_i msg p heq
    rw [heq]
  · rename_i e p hdis heval
    rw [heval]
    cases e <;> try rfl
    exact absurd rfl (fun hh => hdis _ hh)
  · rename_i b p heq
    rw [heq]

/-- A successful `parse_metadata_header` consumed exactly the 4 header
bytes, which were all present, and decoded them. -/
theorem parse_metadata_header_ok {src : List Nat} {pos : Nat}
    {hd : MetadataBlockHeader} {p1 : Nat}
    (h : parse_metadata_header src pos = .ok hd p1) :
    pos + 4 ≤ src.length ∧ p1 = pos + 4 ∧
      hd = decodeMetadataBlockHeader ((src.drop pos).take 4) := by
  unfold parse_metadata_header read_ctype fread at h
  simp only at h
  split at h
  · exact absurd h (by simp)
  · rename_i hc
    have hlen : ((src.drop pos).take 4).length = min 4 (src.length - pos) := by
      simp
    rw [PRes.ok.injEq] at h
    refine ⟨by omega, ?_, h.1.symm⟩
    rw [← h.2, hlen]
    omega

/-! ## C10 -/

/-- Every branch of the post-loop phase of the constructor ends in an
exception. -/
theorem flacParserInitTail_error_isSome (diags : List (Nat × Nat))
    (src : List Nat) (blocks : List MetadataBlock) (p : Nat) :
    (flacParserInitTail diags src blocks p).error.isSome := by
  unfold flacParserInitTail
  split
  · simp
  · split
    · simp
    · split
      · simp
      · split <;> simp

/-- C10: for every input byte source, constructing `FlacParser` never
returns a fully constructed parser: after the frame header validates, the
constructor accesses `frame_header.blocking_strategy`, an attribute the
`FrameHeader` object does not define, so every invocation raises an
exception (either a parse error earlier, or an attribute error at the final
reporting step). -/
theorem init_always_raises (src : List Nat) :
    (flacParserInit src).error.isSome := by
  unfold flacParserInit
  simp only
  rcases hpl : parseBlockLoop src (parse_magic src 0).2 [] with ⟨blocks, p, oc⟩
  cases oc with
  | lastBlock => exact flacParserInitTail_error_isSome _ _ _ _
  | unknownStop => exact flacParserInitTail_error_isSome _ _ _ _
  | aborted e => simp

/-! ## C5 -/

/-- C5: whenever a metadata block's payload decoding completes (Padding
skip included), the read cursor is seeked to `header_offset + 4 +
header.length`, regardless of how many bytes the payload decoder actually
consumed. -/
theorem block_cursor_resync {src : List Nat} {pos : Nat}
    {b : MetadataBlock} {p2 : Nat}
    (h : parse_metadata_block src pos = .ok b p2) :
    p2 = pos + 4 + b.header.length := by
  unfold parse_metadata_block at h
  split at h
  · exact absurd h (by simp)
  · rename_i hd p1 hh
    obtain ⟨-, hp1, -⟩ := parse_metadata_header_ok hh
    split at h
    · split at h
      · exact absurd h (by simp)
      · rw [PRes.ok.injEq] at h
        rw [← h.1, ← h.2, hp1]
    · exact absurd h (by simp)

/-- C5 witness: a concrete Padding block (type 1, length 2) decoded from
offset 0 ends with the cursor at 0 + 4 + 2. -/
theorem block_cursor_resync_witness :
    ∃ b p2, parse_metadata_block [1, 0, 0, 2, 9, 9] 0 = .ok b p2 ∧
      p2 = 0 + 4 + b.header.length := by
  refine ⟨⟨⟨0, 1, 2⟩, .padding 2⟩, 6, by decide, ?_⟩
  exact @block_cursor_resync [1, 0, 0, 2, 9, 9] 0 ⟨⟨0, 1, 2⟩, .padding 2⟩ 6 (by decide)

/-! ## C8 -/

/-- C8: a Padding block with header length `L` yields `padding L` (no
payload bytes retained) and the cursor ends exactly `L` bytes past the
header. -/
theorem parse_data_padding {src : List Nat} {pos : Nat}
    {hd : MetadataBlockHeader} (ht : hd.block_type = 1) :
    parse_data_for_metadata_header src hd pos = .ok (.padding hd.length) pos := by
  unfold parse_data_for_metadata_header parse_padding
  rw [ht]
  norm_num

/-- C8: a Padding block with header length `L` yields `padding L` (no
payload bytes retained) and the cursor ends exactly `L` bytes past the
header. -/
theorem padding_block_behavior {src : List Nat} {pos : Nat}
    {hd : MetadataBlockHeader} {p1 : Nat}
    (hh : parse_metadata_header src pos = .ok hd p1)
    (ht : hd.block_type = 1) :
    parse_metadata_block src pos = .ok ⟨hd, .padding hd.length⟩ (pos + 4 + hd.length) := by
  obtain ⟨-, hp1, -⟩ := parse_metadata_header_ok hh
  have henum : isEnumMember hd.block_type = true := by
    rw [ht]
    decide
  unfold parse_metadata_block
  rw [hh]
  simp only [henum, if_true, parse_data_padding ht, hp1]

/-- C8 witness: a concrete Padding block of length 3. -/
theorem padding_block_behavior_witness :
    parse_metadata_block [1, 0, 0, 3, 5, 6, 7] 0 =
      .ok ⟨⟨0, 1, 3⟩, .padding 3⟩ (0 + 4 + 3) := by
  exact @padding_block_behavior [1, 0, 0, 3, 5, 6, 7] 0 ⟨0, 1, 3⟩ 4 (by decide) (by decide)

/-! ## C2 -/

/-- When enough bytes are available, the seek-point reading loop decodes
`n` consecutive 18-byte records. -/
theorem readSeekPoints_ok (src : List Nat) (n pos : Nat)
    (h : pos + 18 * n ≤ src.length) :
    readSeekPoints src n pos =
      .ok ((List.range n).map
        (fun i => decodeSeekPoint ((src.drop (pos + 18 * i)).take 18)))
        (pos + 18 * n) := by
  induction n generalizing pos with
  | zero => simp [readSeekPoints]
  | succ n ih =>
    unfold readSeekPoints read_ctype fread
    have hlen : ((src.drop pos).take 18).length = 18 := by
      simp
      omega
    simp only [hlen]
    norm_num
    rw [ih (pos + 18) (by omega)]
    have hshift : ∀ i : Nat, pos + 18 + 18 * i = pos + 18 * (i + 1) := by
      intro i
      ring
    simp [List.range_succ_eq_map, List.map_map, Function.comp, hshift]

/-- C2 counterexample: a SeekTable block whose header length is 19 (not a
multiple of 18) does not fail: it decodes one record from the first 18
bytes and returns a partial SeekTable. -/
theorem seektable_not_multiple_no_error :
    parse_seektable (List.replicate 19 0) ⟨0, 3, 19⟩ 0 =
      .ok [⟨0, 0, 0⟩] 18 := by
  decide

/-- C2 (amended): a SeekTable block never checks divisibility by 18: when
the bytes are available it decodes exactly `header.length / 18` (floor)
SeekPoint records sequentially from consecutive 18-byte chunks — for a
length that is a multiple of 18 that is `length / 18` records, and for any
other length the remainder bytes are ignored and a partial table is
returned without error. -/
theorem seektable_decodes_floor_records (src : List Nat)
    (header : MetadataBlockHeader) (pos : Nat)
    (ht : header.block_type = 3)
    (hav : pos + 18 * (header.length / 18) ≤ src.length) :
    parse_seektable src header pos =
      .ok ((List.range (header.length / 18)).map
        (fun i => decodeSeekPoint ((src.drop (pos + 18 * i)).take 18)))
        (pos + 18 * (header.length / 18)) := by
  unfold parse_seektable
  rw [ht]
  norm_num
  exact readSeekPoints_ok src _ pos hav

/-- C2 witness: a length-19 SeekTable over 20 available bytes decodes one
record. -/
theorem seektable_decodes_floor_records_witness :
    parse_seektable (List.replicate 20 1) ⟨0, 3, 19⟩ 0 =
      .ok ((List.range (19 / 18)).map
        (fun i => decodeSeekPoint (((List.replicate 20 1).drop (0 + 18 * i)).take 18)))
        (0 + 18 * (19 / 18)) := by
  exact seektable_decodes_floor_records (List.replicate 20 1) ⟨0, 3, 19⟩ 0
    (by decide) (by decide)

/-! ## C3 -/

/-- C3 counterexample: frame-header bytes `0xFF 0xF9 0x00 0x00` validate
successfully (the bit after the sync code that `0xF9` sets is the
blocking-strategy flag, not a reserved bit), and bytes `0xFF 0xF8 0x00 0x01`
fail, because the second reserved bit is the last bit of the fourth byte. -/
theorem frame_header_examples_refuted :
    (∃ raw, parse_frame_header [255, 249, 0, 0] 0 = .ok raw 4) ∧
      parse_frame_header [255, 248, 0, 1] 0 =
        .err (.runtimeError "frame_header reserved2 was not 0") 4 := by
  exact ⟨⟨decodeFrameHeaderRaw [255, 249, 0, 0], by decide⟩, by decide⟩

/-- C3 (amended): on a 4-byte input `b0 b1 b2 b3`, validation succeeds iff
the leading 14 bits equal `0b11111111111110` (that is, `b0 = 0xFF` and the
top 6 bits of `b1` are `111110`) and both reserved bits are zero — reserved1
being bit 14 (the third-lowest bit of `b1`) and reserved2 bit 31 (the lowest
bit of `b3`, right after the sample-size code).  So `0xFF 0xF8 b2 b3` and
`0xFF 0xF9 b2 b3` (blocking strategy set, reserved1 still 0) both validate
iff `b3` is even.  A sync mismatch and a reserved bit are reported as
distinct error kinds. -/
theorem frame_header_validation_iff (b0 b1 b2 b3 : Nat)
    (h0 : b0 < 256) (h1 : b1 < 256) (h2 : b2 < 256) (h3 : b3 < 256) :
    ((∃ raw, parse_frame_header [b0, b1, b2, b3] 0 = .ok raw 4) ↔
      (b0 = 255 ∧ b1 / 4 = 62 ∧ b1 / 2 % 2 = 0 ∧ b3 % 2 = 0)) ∧
    (¬ (b0 = 255 ∧ b1 / 4 = 62) →
      parse_frame_header [b0, b1, b2, b3] 0 =
        .err (.runtimeError "FrameHeader sync code was incorrect") 4) ∧
    ((b0 = 255 ∧ b1 / 4 = 62) → b1 / 2 % 2 = 0 → b3 % 2 ≠ 0 →
      parse_frame_header [b0, b1, b2, b3] 0 =
        .err (.runtimeError "frame_header reserved2 was not 0") 4) ∧
    ((b0 = 255 ∧ b1 / 4 = 62) → b1 / 2 % 2 ≠ 0 →
      parse_frame_header [b0, b1, b2, b3] 0 =
        .err (.runtimeError "frame_header reserved1 was not 0") 4) := by
  have hv : beNat ([b0, b1, b2, b3].take 4) =
      b0 * 16777216 + b1 * 65536 + b2 * 256 + b3 := by
    simp [beNat]
    ring
  have hsync : (decodeFrameHeaderRaw [b0, b1, b2, b3]).sync_code =
      b0 * 64 + b1 / 4 := by
    simp only [decodeFrameHeaderRaw, hv]
    omega
  have hr1 : (decodeFrameHeaderRaw [b0, b1, b2, b3]).reserved1 =
      b1 / 2 % 2 := by
    simp only [decodeFrameHeaderRaw, hv]
    omega
  have hr2 : (decodeFrameHeaderRaw [b0, b1, b2, b3]).reserved2 = b3 % 2 := by
    simp only [decodeFrameHeaderRaw, hv]
    omega
  have hread : parse_frame_header [b0, b1, b2, b3] 0 =
      (let raw := decodeFrameHeaderRaw [b0, b1, b2, b3]
       if raw.sync_code ≠ 16382 then
         .err (.runtimeError "FrameHeader sync code was incorrect") 4
       else if raw.reserved1 ≠ 0 then
         .err (.runtimeError "frame_header reserved1 was not 0") 4
       else if raw.reserved2 ≠ 0 then
         .err (.runtimeError "frame_header reserved2 was not 0") 4
       else .ok raw 4) := by
    unfold parse_frame_header read_ctype fread
    simp
  have hsync_iff : (b0 * 64 + b1 / 4 = 16382) ↔ (b0 = 255 ∧ b1 / 4 = 62) := by
    omega
  rw [hread]
  simp only [hsync, hr1, hr2]
  refine ⟨?_, ?_, ?_, ?_⟩
  · constructor
    · intro ⟨raw, hraw⟩
      by_cases hs : b0 * 64 + b1 / 4 = 16382
      · rw [if_neg (by omega)] at hraw
        by_cases ha : b1 / 2 % 2 = 0
        · rw [if_neg (by omega)] at hraw
          by_cases hb : b3 % 2 = 0
          · exact ⟨(hsync_iff.mp hs).1, (hsync_iff.mp hs).2, ha, hb⟩
          · rw [if_pos (by omega)] at hraw
            exact absurd hraw (by simp)
        · rw [if_pos (by omega)] at hraw
          exact absurd hraw (by simp)
      · rw [if_pos (by omega)] at hraw
        exact absurd hraw (by simp)
    · intro ⟨ha, hb, hc, hd⟩
      refine ⟨decodeFrameHeaderRaw [b0, b1, b2, b3], ?_⟩
      rw [if_neg (by omega), if_neg (by omega), if_neg (by omega)]
  · intro hs
    rw [if_pos (by omega)]
  · intro hs hr hb
    rw [if_neg (by omega), if_neg (by omega), if_pos (by omega)]
  · intro hs hr
    rw [if_neg (by omega), if_pos (by omega)]

/-- C3 witness: the amended characterization at the four example inputs
`FF F8 00 00` (valid), `FF F9 00 00` (valid), `FF F8 00 01` (reserved2),
`FF FA 00 00` (reserved1). -/
theorem frame_header_validation_iff_witness :
    (∃ raw, parse_frame_header [255, 248, 0, 0] 0 = .ok raw 4) ∧
      parse_frame_header [255, 250, 0, 0] 0 =
        .err (.runtimeError "frame_header reserved1 was not 0") 4 := by
  constructor
  · exact (frame_header_validation_iff 255 248 0 0 (by decide) (by decide)
      (by decide) (by decide)).1.mpr (by decide)
  · exact (frame_header_validation_iff 255 250 0 0 (by decide) (by decide)
      (by decide) (by decide)).2.2.2 (by decide) (by decide)

/-! ## Byte-stream chaining lemmas -/

/-- Reading exactly the bytes of `mid` when the cursor sits right before
it. -/
theorem fread_exact {src mid post : List Nat} {k n : Nat}
    (h : src.drop k = mid ++ post) (hmid : mid.length = n) :
    fread src k n = (mid, k + n) := by
  unfold fread
  rw [h, List.take_left' hmid]
  show (mid, k + mid.length) = (mid, k + n)
  rw [hmid]

/-- Reading past the end of the source returns just the remaining bytes,
without error. -/
theorem fread_all_short {src frag : List Nat} {k n : Nat}
    (h : src.drop k = frag) (hle : frag.length ≤ n) :
    fread src k n = (frag, k + frag.length) := by
  unfold fread
  rw [h, List.take_of_length_le hle]

/-- The model of `read_ctype_from_file` when the needed bytes are present. -/
theorem read_ctype_exact {α : Type} {dec : List Nat → α}
    {src mid post : List Nat} {k n : Nat}
    (h : src.drop k = mid ++ post) (hmid : mid.length = n) :
    read_ctype n dec src k = .ok (dec mid) (k + n) := by
  unfold read_ctype
  rw [fread_exact h hmid]
  simp [hmid]

/-- Advancing the cursor description over a consumed chunk. -/
theorem drop_advance {src mid post : List Nat} {k n : Nat}
    (h : src.drop k = mid ++ post) (hmid : mid.length = n) :
    src.drop (k + n) = post := by
  have hdd := List.drop_drop n k src
  rw [← hdd, h, List.drop_left' hmid]

/-- The 4 little-endian bytes of a 32-bit value decode back to it. -/
theorem decodeLEu32_le32 {n : Nat} (h : n < 4294967296) :
    decodeLEu32 (le32 n) = n := by
  simp [decodeLEu32, le32, byteAt]
  omega

/-- Encoding with `le32` always produces 4 bytes. -/
theorem le32_length (n : Nat) : (le32 n).length = 4 := rfl

/-! ## C7 -/

/-- C7: a VorbisComment payload holding a vendor string and exactly two
length-prefixed valid-UTF-8 comments decodes to the vendor string followed
by the two comments, byte content and stored order preserved. -/
theorem vorbis_two_comments (pre post vendor c1 c2 : List Nat)
    (header : MetadataBlockHeader) (ht : header.block_type = 4)
    (hvu : utf8Valid vendor = true) (hc1 : utf8Valid c1 = true)
    (hc2 : utf8Valid c2 = true)
    (hv : vendor.length < 4294967296) (h1 : c1.length < 4294967296)
    (h2 : c2.length < 4294967296) :
    parse_vorbis_comment
      (pre ++ le32 vendor.length ++ vendor ++ le32 2 ++ le32 c1.length ++ c1
        ++ le32 c2.length ++ c2 ++ post)
      header pre.length =
      .ok ⟨vendor, [c1, c2]⟩
        (pre.length + 4 + vendor.length + 4 + 4 + c1.length + 4 + c2.length) := by
  have h0 : (pre ++ (le32 vendor.length ++ (vendor ++ (le32 2 ++ (le32 c1.length
        ++ (c1 ++ (le32 c2.length ++ (c2 ++ post)))))))).drop pre.length
      = le32 vendor.length ++ (vendor ++ (le32 2 ++ (le32 c1.length ++ (c1
        ++ (le32 c2.length ++ (c2 ++ post)))))) := List.drop_left _ _
  have h1d := drop_advance h0 (le32_length _)
  have h2d := drop_advance h1d rfl
  have h3d := drop_advance h2d (le32_length _)
  have h4d := drop_advance h3d (le32_length _)
  have h5d := drop_advance h4d rfl
  have h6d := drop_advance h5d (le32_length _)
  unfold parse_vorbis_comment
  rw [if_neg (show ¬(header.block_type ≠ 4) by simp [ht])]
  simp only [List.append_assoc]
  rw [read_ctype_exact h0 (le32_length _), decodeLEu32_le32 hv]
  simp only
  rw [fread_exact h1d rfl]
  simp only [pyDecodeUtf8, hvu, if_true]
  rw [read_ctype_exact h2d (le32_length _), decodeLEu32_le32 (by norm_num)]
  simp only
  unfold readUserComments
  rw [read_ctype_exact h3d (le32_length _), decodeLEu32_le32 h1]
  simp only
  rw [fread_exact h4d rfl]
  simp only [pyDecodeUtf8, hc1, if_true]
  unfold readUserComments
  rw [read_ctype_exact h5d (le32_length _), decodeLEu32_le32 h2]
  simp only
  rw [fread_exact h6d rfl]
  simp only [pyDecodeUtf8, hc2, if_true]
  unfold readUserComments
  simp

/-- C7 witness: a concrete two-comment payload. -/
theorem vorbis_two_comments_witness :
    parse_vorbis_comment
      ([] ++ le32 1 ++ [86] ++ le32 2 ++ le32 1 ++ [97]
        ++ le32 2 ++ [98, 99] ++ []) ⟨0, 4, 23⟩ 0 =
      .ok ⟨[86], [[97], [98, 99]]⟩ (0 + 4 + 1 + 4 + 4 + 1 + 4 + 2) := by
  exact vorbis_two_comments [] [] [86] [97] [98, 99] ⟨0, 4, 23⟩ (by decide)
    (by decide) (by decide) (by decide) (by decide) (by decide) (by decide)

/-! ## C9 -/

/-- C9 counterexample: a VorbisComment whose single comment declares 5
bytes while only 3 remain in the source decodes without any error to a
partial value (the 3 available bytes), so truncation mid-payload is not
always fatal. -/
theorem truncated_comment_partial_value :
    parse_vorbis_comment [0, 0, 0, 0, 1, 0, 0, 0, 5, 0, 0, 0, 97, 98, 99]
      ⟨0, 4, 15⟩ 0 = .ok ⟨[], [[97, 98, 99]]⟩ 15 := by
  decide

/-- C9 (amended): a fixed-width field-group read (`read_ctype_from_file`)
does fail with a `ValueError` when the source holds fewer bytes than
`sizeof` requires; but a length-prefixed string read uses `file.read(n)`,
which silently returns however many bytes are available, so a truncated
trailing comment yields a partially decoded value with no error. -/
theorem truncation_behavior :
    (∀ (α : Type) (dec : List Nat → α) (sz : Nat) (src : List Nat) (pos : Nat),
      0 < sz → src.length < pos + sz →
      read_ctype sz dec src pos =
        .err (.valueError "Buffer size too small")
          (pos + min sz (src.length - pos))) ∧
    (∀ (pre vendor frag : List Nat) (n : Nat) (header : MetadataBlockHeader),
      header.block_type = 4 → utf8Valid vendor = true → utf8Valid frag = true →
      vendor.length < 4294967296 → n < 4294967296 → frag.length < n →
      parse_vorbis_comment
        (pre ++ le32 vendor.length ++ vendor ++ le32 1 ++ le32 n ++ frag)
        header pre.length =
        .ok ⟨vendor, [frag]⟩ (pre.length + 4 + vendor.length + 4 + 4 + frag.length)) := by
  constructor
  · intro α dec sz src pos hsz hlt
    unfold read_ctype fread
    have hlen : ((src.drop pos).take sz).length = min sz (src.length - pos) := by
      simp
    simp only [hlen]
    rw [if_pos (by omega)]
  · intro pre vendor frag n header ht hvu hfu hv hn hlt
    have h0 : (pre ++ (le32 vendor.length ++ (vendor ++ (le32 1
          ++ (le32 n ++ frag))))).drop pre.length
        = le32 vendor.length ++ (vendor ++ (le32 1 ++ (le32 n ++ frag))) :=
      List.drop_left _ _
    have h1d := drop_advance h0 (le32_length _)
    have h2d := drop_advance h1d rfl
    have h3d := drop_advance h2d (le32_length _)
    have h4d : (pre ++ (le32 vendor.length ++ (vendor ++ (le32 1
          ++ (le32 n ++ frag))))).drop (pre.length + 4 + vendor.length + 4 + 4)
        = frag := by
      have := drop_advance h3d (le32_length n)
      simpa using this
    unfold parse_vorbis_comment
    rw [if_neg (show ¬(header.block_type ≠ 4) by simp [ht])]
    simp only [List.append_assoc]
    rw [read_ctype_exact h0 (le32_length _), decodeLEu32_le32 hv]
    simp only
    rw [fread_exact h1d rfl]
    simp only [pyDecodeUtf8, hvu, if_true]
    rw [read_ctype_exact h2d (le32_length _), decodeLEu32_le32 (by norm_num)]
    simp only
    unfold readUserComments
    rw [read_ctype_exact h3d (le32_length _), decodeLEu32_le32 hn]
    simp only
    rw [fread_all_short h4d (by omega)]
    simp only [pyDecodeUtf8, hfu, if_true]
    unfold readUserComments
    simp

/-- C9 witness: the amended theorem at concrete inputs — a 3-byte header
read fails with the buffer-size error, and a truncated trailing comment of
declared length 5 with 3 available bytes is accepted. -/
theorem truncation_behavior_witness :
    read_ctype 4 decodeMetadataBlockHeader [1, 2, 3] 0 =
        .err (.valueError "Buffer size too small") (0 + min 4 ([1, 2, 3].length - 0)) ∧
      parse_vorbis_comment
        ([] ++ le32 0 ++ [] ++ le32 1 ++ le32 5 ++ [97, 98, 99]) ⟨0, 4, 15⟩ 0 =
        .ok ⟨[], [[97, 98, 99]]⟩ (0 + 4 + 0 + 4 + 4 + 3) := by
  constructor
  · exact truncation_behavior.1 MetadataBlockHeader decodeMetadataBlockHeader 4
      [1, 2, 3] 0 (by decide) (by decide)
  · have h := truncation_behavior.2 [] [] [97, 98, 99] 5 ⟨0, 4, 15⟩ (by decide)
      (by decide) (by decide) (by decide) (by decide) (by decide)
    simpa using h

/-! ## C6 -/

/-- The payload dispatch raises `NotImplementedError` exactly when the type
code is none of 0, 3, 4, 1, without reading any byte. -/
theorem parse_data_not_implemented {src : List Nat} {pos : Nat}
    {hd : MetadataBlockHeader}
    (h0 : hd.block_type ≠ 0) (h3 : hd.block_type ≠ 3)
    (h4 : hd.block_type ≠ 4) (h1 : hd.block_type ≠ 1) :
    parse_data_for_metadata_header src hd pos =
      .err (.notImplementedError "block type") pos := by
  unfold parse_data_for_metadata_header
  rw [if_neg h0, if_neg h3, if_neg h4, if_neg h1]

/-- C6 counterexample: a block with the reserved type code 10 does not
halt the loop gracefully: the enum lookup in the progress print raises
`ValueError` — an error of the same class as the structural buffer errors,
not the `NotImplementedError` unsupported-block signal — which escapes the
constructor, so no block list is returned at all. -/
theorem reserved_type_10_aborts :
    parseBlockLoop [102, 76, 97, 67, 10, 0, 0, 0] 4 [] =
        ([], 8, .aborted (.valueError "is not a valid MetadataBlockType")) ∧
      flacParserInit [102, 76, 97, 67, 10, 0, 0, 0] =
        ⟨[], [], some (.valueError "is not a valid MetadataBlockType")⟩ := by
  have hstep : parseBlockLoop [102, 76, 97, 67, 10, 0, 0, 0] 4 [] =
      ([], 8, .aborted (.valueError "is not a valid MetadataBlockType")) := by
    rw [parseBlockLoop_step]
    decide
  refine ⟨hstep, ?_⟩
  have hm : parse_magic [102, 76, 97, 67, 10, 0, 0, 0] 0 = ([], 4) := by
    decide
  unfold flacParserInit
  rw [hm]
  simp only [hstep]

/-- C6 (amended): after a block header decodes, a type code that is an
enum member but unsupported (2 Application, 5 CueSheet, 6 Picture,
127 Invalid) halts the loop gracefully before any payload byte is read,
returning exactly the blocks decoded before it; but a reserved type code
(7..126, e.g. 10) raises `ValueError` in the progress print instead, which
is not the unsupported-block signal and aborts the whole parse. -/
theorem unknown_block_halting (src : List Nat) (pos : Nat)
    (acc : List MetadataBlock) (hd : MetadataBlockHeader) (p1 : Nat)
    (hh : parse_metadata_header src pos = .ok hd p1) :
    (hd.block_type = 2 ∨ hd.block_type = 5 ∨ hd.block_type = 6 ∨
        hd.block_type = 127 →
      parseBlockLoop src pos acc = (acc, p1, .unknownStop)) ∧
    (7 ≤ hd.block_type → hd.block_type ≤ 126 →
      parseBlockLoop src pos acc =
        (acc, p1, .aborted (.valueError "is not a valid MetadataBlockType"))) := by
  constructor
  · intro hcase
    have hne0 : hd.block_type ≠ 0 := by rcases hcase with h | h | h | h <;> omega
    have hne3 : hd.block_type ≠ 3 := by rcases hcase with h | h | h | h <;> omega
    have hne4 : hd.block_type ≠ 4 := by rcases hcase with h | h | h | h <;> omega
    have hne1 : hd.block_type ≠ 1 := by rcases hcase with h | h | h | h <;> omega
    have henum : isEnumMember hd.block_type = true := by
      rcases hcase with h | h | h | h <;> simp [isEnumMember, h]
    have hblk : parse_metadata_block src pos =
        .err (.notImplementedError "block type") p1 := by
      unfold parse_metadata_block
      rw [hh]
      simp only [henum, if_true, parse_data_not_implemented hne0 hne3 hne4 hne1]
    rw [parseBlockLoop_step, hblk]
  · intro h7 h126
    have henum : ¬(isEnumMember hd.block_type = true) := by
      simp [isEnumMember]
      omega
    have hblk : parse_metadata_block src pos =
        .err (.valueError "is not a valid MetadataBlockType") p1 := by
      unfold parse_metadata_block
      rw [hh]
      simp only [if_neg henum]
    rw [parseBlockLoop_step, hblk]

/-- C6 witness: the amended theorem at a concrete Application block (type
2, graceful stop after the header) and a concrete reserved block (type 10,
`ValueError` abort). -/
theorem unknown_block_halting_witness :
    parseBlockLoop [2, 0, 0, 5, 1, 1] 0 [] = ([], 4, .unknownStop) ∧
      parseBlockLoop [10, 0, 0, 0] 0 [] =
        ([], 4, .aborted (.valueError "is not a valid MetadataBlockType")) := by
  constructor
  · exact (unknown_block_halting [2, 0, 0, 5, 1, 1] 0 [] ⟨0, 2, 5⟩ 4
      (by decide)).1 (by decide)
  · exact (unknown_block_halting [10, 0, 0, 0] 0 [] ⟨0, 10, 0⟩ 4
      (by decide)).2 (by decide) (by decide)

/-! ## C4 -/

/-- C4 counterexample: on the exact minimal container (signature, one
last-flagged StreamInfo header, 34 payload bytes) `parse` does not return a
Container at all: the StreamInfo ctypes buffer is 36 bytes, the 36-byte
read finds only 34, and `from_buffer` raises `ValueError`, so the block
list stays empty and the constructor aborts. -/
theorem minimal_container_parse_fails :
    flacParserInit ([102, 76, 97, 67, 128, 0, 0, 34] ++ List.replicate 34 7) =
      ⟨[], [], some (.valueError "Buffer size too small")⟩ := by
  have hstep : parseBlockLoop ([102, 76, 97, 67, 128, 0, 0, 34]
        ++ List.replicate 34 7) 4 [] =
      ([], 42, .aborted (.valueError "Buffer size too small")) := by
    rw [parseBlockLoop_step]
    decide
  have hm : parse_magic ([102, 76, 97, 67, 128, 0, 0, 34]
      ++ List.replicate 34 7) 0 = ([], 4) := by
    decide
  unfold flacParserInit
  rw [hm]
  simp only [hstep]

/-- C4 (amended): for a container of the signature, a last-flagged
StreamInfo block with a 34-byte payload in the spec's contiguous big-endian
layout, and at least two further bytes, the block list gets exactly one
StreamInfo block, but its fields follow the fragmented 36-byte ctypes
layout: the min/max block sizes and the min frame size decode to the
encoded values, the max frame size is read from shifted offsets (producing
`mxf % 65536 * 256 + sr / 4096`), the channel and bits-per-sample codes
always decode to 0, and the parse still raises instead of returning a
Container (the seek-table report dereferences `None`). -/
theorem streaminfo_decoding (mnb mxb mnf mxf sr ch bps tsc e0 e1 : Nat)
    (md5 : List Nat) (payload src : List Nat)
    (hmd5 : md5.length = 16)
    (hp : payload = specStreamInfoBytes mnb mxb mnf mxf sr ch bps tsc md5)
    (hs : src = [102, 76, 97, 67, 128, 0, 0, 34] ++ payload ++ [e0, e1]) :
    ∃ si : MetadataBlockStreamInfo,
      (flacParserInit src).blocks = [⟨⟨1, 0, 34⟩, .streamInfo si⟩] ∧
      si.min_block_size = mnb ∧ si.max_block_size = mxb ∧
      si.min_frame_size = mnf ∧
      si.max_frame_size = mxf % 65536 * 256 + sr / 4096 ∧
      si.num_channels = 0 ∧ si.bits_per_sample = 0 ∧
      (flacParserInit src).error =
        some (.attributeError "NoneType object has no attribute data") := by
  subst hp hs
  obtain ⟨m0, m1, m2, m3, m4, m5, m6, m7, m8, m9, m10, m11, m12, m13, m14,
      m15, hmd5e⟩ :
      ∃ a0 a1 a2 a3 a4 a5 a6 a7 a8 a9 a10 a11 a12 a13 a14 a15,
        md5 = [a0, a1, a2, a3, a4, a5, a6, a7, a8, a9, a10, a11, a12, a13,
          a14, a15] := by
    match md5, hmd5 with
    | [a0, a1, a2, a3, a4, a5, a6, a7, a8, a9, a10, a11, a12, a13, a14, a15],
        _ =>
      exact ⟨a0, a1, a2, a3, a4, a5, a6, a7, a8, a9, a10, a11, a12, a13, a14,
        a15, rfl⟩
  subst hmd5e
  set si := decodeStreamInfo (specStreamInfoBytes mnb mxb mnf mxf sr ch bps tsc
    [m0, m1, m2, m3, m4, m5, m6, m7, m8, m9, m10, m11, m12, m13, m14, m15]
    ++ [e0, e1]) with hsi
  have h4 : ([102, 76, 97, 67, 128, 0, 0, 34]
        ++ specStreamInfoBytes mnb mxb mnf mxf sr ch bps tsc
          [m0, m1, m2, m3, m4, m5, m6, m7, m8, m9, m10, m11, m12, m13, m14, m15]
        ++ [e0, e1]).drop 4
      = [128, 0, 0, 34]
        ++ (specStreamInfoBytes mnb mxb mnf mxf sr ch bps tsc
          [m0, m1, m2, m3, m4, m5, m6, m7, m8, m9, m10, m11, m12, m13, m14, m15]
          ++ [e0, e1]) := by
    simp [specStreamInfoBytes]
  have h8 : ([102, 76, 97, 67, 128, 0, 0, 34]
        ++ specStreamInfoBytes mnb mxb mnf mxf sr ch bps tsc
          [m0, m1, m2, m3, m4, m5, m6, m7, m8, m9, m10, m11, m12, m13, m14, m15]
        ++ [e0, e1]).drop 8
      = (specStreamInfoBytes mnb mxb mnf mxf sr ch bps tsc
          [m0, m1, m2, m3, m4, m5, m6, m7, m8, m9, m10, m11, m12, m13, m14, m15]
          ++ [e0, e1]) ++ [] := by
    simp [specStreamInfoBytes]
  have hlen36 : (specStreamInfoBytes mnb mxb mnf mxf sr ch bps tsc
      [m0, m1, m2, m3, m4, m5, m6, m7, m8, m9, m10, m11, m12, m13, m14, m15]
      ++ [e0, e1]).length = 36 := by
    simp [specStreamInfoBytes]
  have hh : parse_metadata_header ([102, 76, 97, 67, 128, 0, 0, 34]
        ++ specStreamInfoBytes mnb mxb mnf mxf sr ch bps tsc
          [m0, m1, m2, m3, m4, m5, m6, m7, m8, m9, m10, m11, m12, m13, m14, m15]
        ++ [e0, e1]) 4
      = .ok ⟨1, 0, 34⟩ 8 := by
    unfold parse_metadata_header
    rw [read_ctype_exact (n := 4) h4 rfl]
    decide
  have hblk : parse_metadata_block ([102, 76, 97, 67, 128, 0, 0, 34]
        ++ specStreamInfoBytes mnb mxb mnf mxf sr ch bps tsc
          [m0, m1, m2, m3, m4, m5, m6, m7, m8, m9, m10, m11, m12, m13, m14, m15]
        ++ [e0, e1]) 4
      = .ok ⟨⟨1, 0, 34⟩,
          .streamInfo (decodeStreamInfo (specStreamInfoBytes mnb mxb mnf mxf
            sr ch bps tsc [m0, m1, m2, m3, m4, m5, m6, m7, m8, m9, m10, m11,
              m12, m13, m14, m15] ++ [e0, e1]))⟩ 42 := by
    unfold parse_metadata_block
    rw [hh]
    simp only
    unfold parse_data_for_metadata_header
    simp only [if_pos rfl]
    rw [read_ctype_exact (n := 36) h8 hlen36]
    simp [isEnumMember]
  have hloop : parseBlockLoop ([102, 76, 97, 67, 128, 0, 0, 34]
        ++ specStreamInfoBytes mnb mxb mnf mxf sr ch bps tsc
          [m0, m1, m2, m3, m4, m5, m6, m7, m8, m9, m10, m11, m12, m13, m14, m15]
        ++ [e0, e1]) 4 []
      = ([⟨⟨1, 0, 34⟩,
          .streamInfo (decodeStreamInfo (specStreamInfoBytes mnb mxb mnf mxf
            sr ch bps tsc [m0, m1, m2, m3, m4, m5, m6, m7, m8, m9, m10, m11,
              m12, m13, m14, m15] ++ [e0, e1]))⟩], 42, .lastBlock) := by
    rw [parseBlockLoop_step, hblk]
    norm_num
  have hm : parse_magic ([102, 76, 97, 67, 128, 0, 0, 34]
        ++ specStreamInfoBytes mnb mxb mnf mxf sr ch bps tsc
          [m0, m1, m2, m3, m4, m5, m6, m7, m8, m9, m10, m11, m12, m13, m14, m15]
        ++ [e0, e1]) 0 = ([], 4) := by
    unfold parse_magic
    have h0 : ([102, 76, 97, 67, 128, 0, 0, 34]
          ++ specStreamInfoBytes mnb mxb mnf mxf sr ch bps tsc
            [m0, m1, m2, m3, m4, m5, m6, m7, m8, m9, m10, m11, m12, m13, m14, m15]
          ++ [e0, e1]).drop 0
        = [102, 76, 97, 67] ++ ([128, 0, 0, 34]
          ++ (specStreamInfoBytes mnb mxb mnf mxf sr ch bps tsc
            [m0, m1, m2, m3, m4, m5, m6, m7, m8, m9, m10, m11, m12, m13, m14, m15]
            ++ [e0, e1])) := by
      simp [specStreamInfoBytes]
    rw [fread_exact (n := 4) h0 rfl]
    decide
  have hds : dump_stream_info [⟨⟨1, 0, 34⟩, .streamInfo si⟩] = none := by
    simp [dump_stream_info, get_metadata_block_with_type, List.find?]
  have hdt : dump_seek_table [⟨⟨1, 0, 34⟩, .streamInfo si⟩] =
      some (.attributeError "NoneType object has no attribute data") := by
    simp [dump_seek_table, get_metadata_block_with_type, List.find?]
  have hfinal : flacParserInit ([102, 76, 97, 67, 128, 0, 0, 34]
        ++ specStreamInfoBytes mnb mxb mnf mxf sr ch bps tsc
          [m0, m1, m2, m3, m4, m5, m6, m7, m8, m9, m10, m11, m12, m13, m14, m15]
        ++ [e0, e1])
      = ⟨[], [⟨⟨1, 0, 34⟩, .streamInfo si⟩],
          some (.attributeError "NoneType object has no attribute data")⟩ := by
    rw [flacParserInit, hm]
    simp only [hloop]
    unfold flacParserInitTail
    simp only [hds, hdt]
  refine ⟨si, by rw [hfinal], ?_, ?_, ?_, ?_, ?_, ?_, by rw [hfinal]⟩ <;>
    rw [hsi] <;>
    simp [decodeStreamInfo, specStreamInfoBytes, byteAt] <;>
    omega

/-- C4 witness: the amended StreamInfo theorem at concrete field values. -/
theorem streaminfo_decoding_witness :
    ∃ si : MetadataBlockStreamInfo,
      (flacParserInit ([102, 76, 97, 67, 128, 0, 0, 34]
        ++ specStreamInfoBytes 576 1152 14 9000000 44100 1 15 123456789
          [0, 1, 2, 3, 4, 5, 6, 7, 8, 9, 10, 11, 12, 13, 14, 15]
        ++ [255, 248])).blocks = [⟨⟨1, 0, 34⟩, .streamInfo si⟩] ∧
      si.min_block_size = 576 ∧ si.max_block_size = 1152 ∧
      si.min_frame_size = 14 ∧
      si.max_frame_size = 9000000 % 65536 * 256 + 44100 / 4096 ∧
      si.num_channels = 0 ∧ si.bits_per_sample = 0 ∧
      (flacParserInit ([102, 76, 97, 67, 128, 0, 0, 34]
        ++ specStreamInfoBytes 576 1152 14 9000000 44100 1 15 123456789
          [0, 1, 2, 3, 4, 5, 6, 7, 8, 9, 10, 11, 12, 13, 14, 15]
        ++ [255, 248])).error =
        some (.attributeError "NoneType object has no attribute data") := by
  exact streaminfo_decoding 576 1152 14 9000000 44100 1 15 123456789 255 248
    [0, 1, 2, 3, 4, 5, 6, 7, 8, 9, 10, 11, 12, 13, 14, 15] _ _ (by decide)
    rfl rfl

/-! ## C1: cursor monotonicity lemmas -/

/-- Reading via `fread` never moves the cursor backwards. -/
theorem fread_snd_ge (src : List Nat) (pos n : Nat) :
    pos ≤ (fread src pos n).2 :=
  Nat.le_add_right _ _

/-- The model of `read_ctype_from_file` never moves the cursor backwards. -/
theorem read_ctype_pos_le {α : Type} (sz : Nat) (dec : List Nat → α)
    (src : List Nat) (pos : Nat) : pos ≤ (read_ctype sz dec src pos).pos := by
  unfold read_ctype fread
  simp only
  split <;> simp [PRes.pos]

/-- The seek-point loop never moves the cursor backwards. -/
theorem readSeekPoints_pos_le (src : List Nat) (n pos : Nat) :
    pos ≤ (readSeekPoints src n pos).pos := by
  induction n generalizing pos with
  | zero => simp [readSeekPoints, PRes.pos]
  | succ n ih =>
    unfold readSeekPoints
    split
    · rename_i e p h
      have h1 := read_ctype_pos_le 18 decodeSeekPoint src pos
      rw [h] at h1
      simpa [PRes.pos] using h1
    · rename_i sp p h
      have h1 := read_ctype_pos_le 18 decodeSeekPoint src pos
      rw [h] at h1
      simp only [PRes.pos] at h1
      split
      · rename_i e2 p2 h2
        have h3 := ih p
        rw [h2] at h3
        simp only [PRes.pos] at h3 ⊢
        omega
      · rename_i sps p2 h2
        have h3 := ih p
        rw [h2] at h3
        simp only [PRes.pos] at h3 ⊢
        omega

/-- The model of `parse_seektable` never moves the cursor backwards. -/
theorem parse_seektable_pos_le (src : List Nat) (hd : MetadataBlockHeader)
    (pos : Nat) : pos ≤ (parse_seektable src hd pos).pos := by
  unfold parse_seektable
  split
  · simp [PRes.pos]
  · exact readSeekPoints_pos_le src _ pos

/-- The comment loop never moves the cursor backwards. -/
theorem readUserComments_pos_le (src : List Nat) (n pos : Nat) :
    pos ≤ (readUserComments src n pos).pos := by
  induction n generalizing pos with
  | zero => simp [readUserComments, PRes.pos]
  | succ n ih =>
    unfold readUserComments
    split
    · rename_i e p h
      have h1 := read_ctype_pos_le 4 decodeLEu32 src pos
      rw [h] at h1
      simpa [PRes.pos] using h1
    · rename_i len p h
      have h1 := read_ctype_pos_le 4 decodeLEu32 src pos
      rw [h] at h1
      simp only [PRes.pos] at h1
      have h2 : p ≤ (fread src p len).2 := Nat.le_add_right _ _
      dsimp only
      split
      · rename_i e h3
        simp only [PRes.pos]
        omega
      · rename_i comment h3
        split
        · rename_i e2 p2 h4
          have h5 := ih (fread src p len).2
          rw [h4] at h5
          simp only [PRes.pos] at h5 ⊢
          omega
        · rename_i cs p2 h4
          have h5 := ih (fread src p len).2
          rw [h4] at h5
          simp only [PRes.pos] at h5 ⊢
          omega

/-- The model of `parse_vorbis_comment` never moves the cursor backwards. -/
theorem parse_vorbis_comment_pos_le (src : List Nat)
    (hd : MetadataBlockHeader) (pos : Nat) :
    pos ≤ (parse_vorbis_comment src hd pos).pos := by
  unfold parse_vorbis_comment
  split
  · simp [PRes.pos]
  · split
    · rename_i e p h
      have h1 := read_ctype_pos_le 4 decodeLEu32 src pos
      rw [h] at h1
      simpa [PRes.pos] using h1
    · rename_i vlen p h
      have h1 := read_ctype_pos_le 4 decodeLEu32 src pos
      rw [h] at h1
      simp only [PRes.pos] at h1
      have h2 : p ≤ (fread src p vlen).2 := Nat.le_add_right _ _
      dsimp only
      split
      · rename_i e h3
        simp only [PRes.pos]
        omega
      · rename_i vendor h3
        split
        · rename_i e2 p2 h4
          have h5 := read_ctype_pos_le 4 decodeLEu32 src (fread src p vlen).2
          rw [h4] at h5
          simp only [PRes.pos] at h5 ⊢
          omega
        · rename_i count p2 h4
          have h5 := read_ctype_pos_le 4 decodeLEu32 src (fread src p vlen).2
          rw [h4] at h5
          simp only [PRes.pos] at h5
          split
          · rename_i e3 p3 h6
            have h7 := readUserComments_pos_le src count p2
            rw [h6] at h7
            simp only [PRes.pos] at h7 ⊢
            omega
          · rename_i cs p3 h6
            have h7 := readUserComments_pos_le src count p2
            rw [h6] at h7
            simp only [PRes.pos] at h7 ⊢
            omega

/-- The payload dispatch never moves the cursor backwards. -/
theorem parse_data_pos_le (src : List Nat) (hd : MetadataBlockHeader)
    (pos : Nat) : pos ≤ (parse_data_for_metadata_header src hd pos).pos := by
  unfold parse_data_for_metadata_header
  split
  · split
    · rename_i e p h
      have h1 := read_ctype_pos_le 36 decodeStreamInfo src pos
      rw [h] at h1
      simpa [PRes.pos] using h1
    · rename_i si p h
      have h1 := read_ctype_pos_le 36 decodeStreamInfo src pos
      rw [h] at h1
      simpa [PRes.pos] using h1
  · split
    · split
      · rename_i e p h
        have h1 := parse_seektable_pos_le src hd pos
        rw [h] at h1
        simpa [PRes.pos] using h1
      · rename_i sps p h
        have h1 := parse_seektable_pos_le src hd pos
        rw [h] at h1
        simpa [PRes.pos] using h1
    · split
      · split
        · rename_i e p h
          have h1 := parse_vorbis_comment_pos_le src hd pos
          rw [h] at h1
          simpa [PRes.pos] using h1
        · rename_i vc p h
          have h1 := parse_vorbis_comment_pos_le src hd pos
          rw [h] at h1
          simpa [PRes.pos] using h1
      · split
        · unfold parse_padding
          split <;> simp [PRes.pos]
        · simp [PRes.pos]

/-- The model of `parse_metadata_block` never moves the cursor backwards. -/
theorem parse_metadata_block_pos_le (src : List Nat) (pos : Nat) :
    pos ≤ (parse_metadata_block src pos).pos := by
  unfold parse_metadata_block
  split
  · rename_i e p h
    have h1 := read_ctype_pos_le 4 decodeMetadataBlockHeader src pos
    rw [show read_ctype 4 decodeMetadataBlockHeader src pos
        = parse_metadata_header src pos from rfl, h] at h1
    simpa [PRes.pos] using h1
  · rename_i hd p1 h
    obtain ⟨-, hp1, -⟩ := parse_metadata_header_ok h
    split
    · split
      · rename_i e p h2
        have h3 := parse_data_pos_le src hd p1
        rw [h2] at h3
        simp only [PRes.pos] at h3 ⊢
        omega
      · simp only [PRes.pos]
        omega
    · simp only [PRes.pos]
      omega

/-- A successful `parse_metadata_block` needed the 4 header bytes and moved
the cursor at least past them. -/
theorem parse_metadata_block_ok_pos {src : List Nat} {pos : Nat}
    {b : MetadataBlock} {p2 : Nat}
    (h : parse_metadata_block src pos = .ok b p2) :
    pos + 4 ≤ src.length ∧ pos + 4 ≤ p2 := by
  unfold parse_metadata_block at h
  split at h
  · exact absurd h (by simp)
  · rename_i hd p1 hh
    obtain ⟨hsrc, hp1, -⟩ := parse_metadata_header_ok hh
    split at h
    · split at h
      · exact absurd h (by simp)
      · rw [PRes.ok.injEq] at h
        exact ⟨hsrc, by omega⟩
    · exact absurd h (by simp)

/-- The metadata-block loop never moves the cursor backwards. -/
theorem parseBlockLoop_pos_le (src : List Nat) (pos : Nat)
    (acc : List MetadataBlock) : pos ≤ (parseBlockLoop src pos acc).2.1 := by
  have H : ∀ k pos acc, src.length - pos ≤ k →
      pos ≤ (parseBlockLoop src pos (acc : List MetadataBlock)).2.1 := by
    intro k
    induction k with
    | zero =>
      intro pos acc hk
      rw [parseBlockLoop_step]
      split
      · rename_i msg p h
        have h1 := parse_metadata_block_pos_le src pos
        rw [h] at h1
        simpa [PRes.pos] using h1
      · rename_i e p hdis h
        have h1 := parse_metadata_block_pos_le src pos
        rw [h] at h1
        simpa [PRes.pos] using h1
      · rename_i b p h
        obtain ⟨h1, -⟩ := parse_metadata_block_ok_pos h
        omega
    | succ k ih =>
      intro pos acc hk
      rw [parseBlockLoop_step]
      split
      · rename_i msg p h
        have h1 := parse_metadata_block_pos_le src pos
        rw [h] at h1
        simpa [PRes.pos] using h1
      · rename_i e p hdis h
        have h1 := parse_metadata_block_pos_le src pos
        rw [h] at h1
        simpa [PRes.pos] using h1
      · rename_i b p h
        obtain ⟨h1, h2⟩ := parse_metadata_block_ok_pos h
        split
        · simp
          omega
        · have h3 := ih p (acc ++ [b]) (by omega)
          omega
  exact H (src.length - pos) pos acc le_rfl

/-! ## C1: the parse beyond the magic depends only on the bytes after it -/

/-- Reads at cursor positions ≥ 4 agree on sources that agree from byte 4
on. -/
theorem fread_congr {s t : List Nat} (h4 : s.drop 4 = t.drop 4) {pos : Nat}
    (hp : 4 ≤ pos) (n : Nat) : fread s pos n = fread t pos n := by
  unfold fread
  have hs := List.drop_drop (pos - 4) 4 s
  have ht := List.drop_drop (pos - 4) 4 t
  rw [h4] at hs
  rw [Nat.add_sub_cancel' hp] at hs ht
  rw [← hs, ← ht]

/-- The model of `read_ctype_from_file` at cursor ≥ 4 agrees on sources agreeing from
byte 4 on. -/
theorem read_ctype_congr {α : Type} {dec : List Nat → α} {s t : List Nat}
    (h4 : s.drop 4 = t.drop 4) {pos : Nat} (hp : 4 ≤ pos) (sz : Nat) :
    read_ctype sz dec s pos = read_ctype sz dec t pos := by
  unfold read_ctype
  rw [fread_congr h4 hp]

/-- The model of `parse_metadata_header` congruence past byte 4. -/
theorem parse_metadata_header_congr {s t : List Nat}
    (h4 : s.drop 4 = t.drop 4) {pos : Nat} (hp : 4 ≤ pos) :
    parse_metadata_header s pos = parse_metadata_header t pos := by
  unfold parse_metadata_header
  exact read_ctype_congr h4 hp 4

/-- Seek-point loop congruence past byte 4. -/
theorem readSeekPoints_congr {s t : List Nat} (h4 : s.drop 4 = t.drop 4) :
    ∀ n pos, 4 ≤ pos → readSeekPoints s n pos = readSeekPoints t n pos := by
  intro n
  induction n with
  | zero => intro pos hp; rfl
  | succ n ih =>
    intro pos hp
    unfold readSeekPoints
    rw [read_ctype_congr h4 hp 18]
    split
    · rfl
    · rename_i sp p h
      have h1 := read_ctype_pos_le 18 decodeSeekPoint t pos
      rw [h] at h1
      simp only [PRes.pos] at h1
      rw [ih p (by omega)]

/-- The model of `parse_seektable` congruence past byte 4. -/
theorem parse_seektable_congr {s t : List Nat} (h4 : s.drop 4 = t.drop 4)
    (hd : MetadataBlockHeader) {pos : Nat} (hp : 4 ≤ pos) :
    parse_seektable s hd pos = parse_seektable t hd pos := by
  unfold parse_seektable
  split
  · rfl
  · exact readSeekPoints_congr h4 _ pos hp

/-- Comment loop congruence past byte 4. -/
theorem readUserComments_congr {s t : List Nat} (h4 : s.drop 4 = t.drop 4) :
    ∀ n pos, 4 ≤ pos → readUserComments s n pos = readUserComments t n pos := by
  intro n
  induction n with
  | zero => intro pos hp; rfl
  | succ n ih =>
    intro pos hp
    unfold readUserComments
    rw [read_ctype_congr h4 hp 4]
    split
    · rfl
    · rename_i len p h
      have h1 := read_ctype_pos_le 4 decodeLEu32 t pos
      rw [h] at h1
      simp only [PRes.pos] at h1
      dsimp only
      rw [fread_congr h4 (by omega) len]
      split
      · rfl
      · rename_i comment h2
        have h5 := fread_snd_ge t p len
        rw [ih (fread t p len).2 (by omega)]

/-- The model of `parse_vorbis_comment` congruence past byte 4. -/
theorem parse_vorbis_comment_congr {s t : List Nat}
    (h4 : s.drop 4 = t.drop 4) (hd : MetadataBlockHeader) {pos : Nat}
    (hp : 4 ≤ pos) :
    parse_vorbis_comment s hd pos = parse_vorbis_comment t hd pos := by
  unfold parse_vorbis_comment
  split
  · rfl
  · rw [read_ctype_congr h4 hp 4]
    split
    · rfl
    · rename_i vlen p h
      have h1 := read_ctype_pos_le 4 decodeLEu32 t pos
      rw [h] at h1
      simp only [PRes.pos] at h1
      dsimp only
      rw [fread_congr h4 (by omega) vlen]
      split
      · rfl
      · rename_i vendor h2
        have h2' : p ≤ (fread t p vlen).2 := Nat.le_add_right _ _
        rw [read_ctype_congr h4 (by omega) 4]
        split
        · rfl
        · rename_i count p2 h3
          have h4' := read_ctype_pos_le 4 decodeLEu32 t (fread t p vlen).2
          rw [h3] at h4'
          simp only [PRes.pos] at h4'
          rw [readUserComments_congr h4 count p2 (by omega)]

/-- Payload dispatch congruence past byte 4. -/
theorem parse_data_congr {s t : List Nat} (h4 : s.drop 4 = t.drop 4)
    (hd : MetadataBlockHeader) {pos : Nat} (hp : 4 ≤ pos) :
    parse_data_for_metadata_header s hd pos =
      parse_data_for_metadata_header t hd pos := by
  unfold parse_data_for_metadata_header
  split
  · rw [read_ctype_congr h4 hp 36]
  · split
    · rw [parse_seektable_congr h4 hd hp]
    · split
      · rw [parse_vorbis_comment_congr h4 hd hp]
      · rfl

/-- The model of `parse_metadata_block` congruence past byte 4. -/
theorem parse_metadata_block_congr {s t : List Nat}
    (h4 : s.drop 4 = t.drop 4) {pos : Nat} (hp : 4 ≤ pos) :
    parse_metadata_block s pos = parse_metadata_block t pos := by
  unfold parse_metadata_block
  rw [parse_metadata_header_congr h4 hp]
  split
  · rfl
  · rename_i hd p1 h
    obtain ⟨-, hp1, -⟩ := parse_metadata_header_ok h
    split
    · rw [parse_data_congr h4 hd (by omega)]
    · rfl

/-- Block loop congruence past byte 4. -/
theorem parseBlockLoop_congr {s t : List Nat} (h4 : s.drop 4 = t.drop 4)
    (pos : Nat) (acc : List MetadataBlock) (hp : 4 ≤ pos) :
    parseBlockLoop s pos acc = parseBlockLoop t pos acc := by
  have H : ∀ k pos acc, s.length - pos ≤ k → 4 ≤ pos →
      parseBlockLoop s pos acc = parseBlockLoop t pos acc := by
    intro k
    induction k with
    | zero =>
      intro pos acc hk hp
      rw [parseBlockLoop_step s, parseBlockLoop_step t,
        parse_metadata_block_congr h4 hp]
      split
      · rfl
      · rfl
      · rename_i b p h
        have hok : parse_metadata_block s pos = .ok b p :=
          (parse_metadata_block_congr h4 hp).trans h
        obtain ⟨h1, -⟩ := parse_metadata_block_ok_pos hok
        omega
    | succ k ih =>
      intro pos acc hk hp
      rw [parseBlockLoop_step s, parseBlockLoop_step t,
        parse_metadata_block_congr h4 hp]
      split
      · rfl
      · rfl
      · rename_i b p h
        have hok : parse_metadata_block s pos = .ok b p :=
          (parse_metadata_block_congr h4 hp).trans h
        obtain ⟨h1, h2⟩ := parse_metadata_block_ok_pos hok
        split
        · rfl
        · exact ih p (acc ++ [b]) (by omega) (by omega)
  exact H (s.length - pos) pos acc le_rfl hp

/-- The model of `parse_frame_header` congruence past byte 4. -/
theorem parse_frame_header_congr {s t : List Nat}
    (h4 : s.drop 4 = t.drop 4) {pos : Nat} (hp : 4 ≤ pos) :
    parse_frame_header s pos = parse_frame_header t pos := by
  unfold parse_frame_header
  rw [read_ctype_congr h4 hp 4]

/-- The post-loop constructor phase ignores the magic diagnostics and the
first 4 source bytes as far as blocks and error are concerned. -/
theorem flacParserInitTail_congr {s t : List Nat} (h4 : s.drop 4 = t.drop 4)
    (d1 d2 : List (Nat × Nat)) (blocks : List MetadataBlock) {p : Nat}
    (hp : 4 ≤ p) :
    (flacParserInitTail d1 s blocks p).blocks =
        (flacParserInitTail d2 t blocks p).blocks ∧
      (flacParserInitTail d1 s blocks p).error =
        (flacParserInitTail d2 t blocks p).error := by
  unfold flacParserInitTail
  rw [parse_frame_header_congr h4 hp]
  rcases dump_stream_info blocks with - | e
  · rcases dump_seek_table blocks with - | e
    · rcases dump_vorbis_comments blocks with - | e
      · rcases parse_frame_header t p with - | -
        · exact ⟨rfl, rfl⟩
        · exact ⟨rfl, rfl⟩
      · exact ⟨rfl, rfl⟩
    · exact ⟨rfl, rfl⟩
  · exact ⟨rfl, rfl⟩

/-- The post-loop phase passes the magic diagnostics through unchanged. -/
theorem flacParserInitTail_diags (d : List (Nat × Nat)) (s : List Nat)
    (blocks : List MetadataBlock) (p : Nat) :
    (flacParserInitTail d s blocks p).magicDiagnostics = d := by
  unfold flacParserInitTail
  rcases dump_stream_info blocks with - | e
  · rcases dump_seek_table blocks with - | e
    · rcases dump_vorbis_comments blocks with - | e
      · rcases parse_frame_header s p with - | -
        · rfl
        · rfl
      · rfl
    · rfl
  · rfl

/-- C1 counterexample: a source starting with `"flac"` (wrong case) is not
aborted: the magic check only records diagnostics, and the following
Padding block is parsed and appended to the block list. -/
theorem bad_magic_still_parses :
    (flacParserInit ([102, 108, 97, 99] ++ [129, 0, 0, 2, 0, 0])).magicDiagnostics
        = [(108, 76), (99, 67)] ∧
      (flacParserInit ([102, 108, 97, 99] ++ [129, 0, 0, 2, 0, 0])).blocks
        = [⟨⟨1, 1, 2⟩, .padding 2⟩] := by
  have hstep : parseBlockLoop ([102, 108, 97, 99] ++ [129, 0, 0, 2, 0, 0]) 4 [] =
      ([⟨⟨1, 1, 2⟩, .padding 2⟩], 10, .lastBlock) := by
    rw [parseBlockLoop_step]
    decide
  have hm : parse_magic ([102, 108, 97, 99] ++ [129, 0, 0, 2, 0, 0]) 0 =
      ([(108, 76), (99, 67)], 4) := by
    decide
  unfold flacParserInit
  rw [hm]
  simp only [hstep]
  exact ⟨rfl, rfl⟩

/-- C1 (amended): a source whose first 4 bytes differ from `fLaC` is not
aborted and no structural error is raised by the magic check: `parse_magic`
prints one diagnostic per mismatching byte (at least one here) and parsing
proceeds exactly as it would have with a correct signature — the block list
and the final exception are identical to those for the same source with the
signature corrected. -/
theorem magic_mismatch_no_abort (m rest : List Nat) (hm4 : m.length = 4)
    (hne : m ≠ correct_magic) :
    (flacParserInit (m ++ rest)).magicDiagnostics ≠ [] ∧
      (flacParserInit (m ++ rest)).blocks =
        (flacParserInit (correct_magic ++ rest)).blocks ∧
      (flacParserInit (m ++ rest)).error =
        (flacParserInit (correct_magic ++ rest)).error := by
  obtain ⟨a, b, c, d, rfl⟩ : ∃ a b c d, m = [a, b, c, d] := by
    match m, hm4 with
    | [a, b, c, d], _ => exact ⟨a, b, c, d, rfl⟩
  have h4 : ([a, b, c, d] ++ rest).drop 4 = (correct_magic ++ rest).drop 4 := by
    rw [List.drop_left' (show ([a, b, c, d] : List Nat).length = 4 from rfl),
      List.drop_left' (show correct_magic.length = 4 from rfl)]
  have hm1 : parse_magic ([a, b, c, d] ++ rest) 0 =
      ([(a, 102), (b, 76), (c, 97), (d, 67)].filter (fun p => p.1 ≠ p.2), 4) := by
    unfold parse_magic
    rw [@fread_exact ([a, b, c, d] ++ rest) [a, b, c, d] rest 0 4
      (List.drop_zero _) rfl]
    rfl
  have hm2 : parse_magic (correct_magic ++ rest) 0 = ([], 4) := by
    unfold parse_magic
    rw [@fread_exact (correct_magic ++ rest) correct_magic rest 0 4
      (List.drop_zero _) rfl]
    rfl
  have hdiag : ([(a, 102), (b, 76), (c, 97), (d, 67)].filter
      (fun p => p.1 ≠ p.2)) ≠ [] := by
    intro hcon
    simp only [List.filter, decide_not] at hcon
    by_cases ha : a = 102 <;> by_cases hb : b = 76 <;> by_cases hc : c = 97 <;>
      by_cases hd : d = 67 <;>
      simp [ha, hb, hc, hd] at hcon ⊢
    exact hne (by rw [ha, hb, hc, hd]; rfl)
  have hloop := parseBlockLoop_congr h4 4 [] (le_refl 4)
  have hpos := parseBlockLoop_pos_le (correct_magic ++ rest) 4 []
  unfold flacParserInit
  rw [hm1, hm2]
  simp only [hloop]
  rcases hl : parseBlockLoop (correct_magic ++ rest) 4 [] with ⟨blocks, p, oc⟩
  rw [hl] at hpos
  simp only at hpos
  cases oc with
  | aborted e => exact ⟨hdiag, rfl, rfl⟩
  | lastBlock =>
    dsimp only
    obtain ⟨hb, he⟩ := flacParserInitTail_congr h4
      ([(a, 102), (b, 76), (c, 97), (d, 67)].filter (fun p => p.1 ≠ p.2)) []
      blocks hpos
    exact ⟨by rw [flacParserInitTail_diags]; exact hdiag, hb, he⟩
  | unknownStop =>
    dsimp only
    obtain ⟨hb, he⟩ := flacParserInitTail_congr h4
      ([(a, 102), (b, 76), (c, 97), (d, 67)].filter (fun p => p.1 ≠ p.2)) []
      blocks hpos
    exact ⟨by rw [flacParserInitTail_diags]; exact hdiag, hb, he⟩

/-- C1 witness: the amended theorem at the `"flac"` source followed by one
Padding block. -/
theorem magic_mismatch_no_abort_witness :
    (flacParserInit ([102, 108, 97, 99] ++ [129, 0, 0, 2, 0, 0])).magicDiagnostics ≠ [] ∧
      (flacParserInit ([102, 108, 97, 99] ++ [129, 0, 0, 2, 0, 0])).blocks =
        (flacParserInit (correct_magic ++ [129, 0, 0, 2, 0, 0])).blocks ∧
      (flacParserInit ([102, 108, 97, 99] ++ [129, 0, 0, 2, 0, 0])).error =
        (flacParserInit (correct_magic ++ [129, 0, 0, 2, 0, 0])).error :=
  magic_mismatch_no_abort [102, 108, 97, 99] [129, 0, 0, 2, 0, 0]
    (by decide) (by decide)

end Flaccid
